import Mathlib

/-!
Shallow embedding of `src/sort_kiwix_library.py`, a utility that sorts the
`book` children of a Kiwix library XML catalog by their `path` attribute and
verifies by raw-text search that no book id was lost.

The XML layer (`xml.etree.ElementTree`) is modelled by elements carrying a tag
and an attribute association list; the root's direct children are a list of
such elements.  File input is modelled by an oracle `String → Option ...`
giving each path's readable content (or its parse result), so the
`FileNotFoundError` / `ET.ParseError` branches become explicit cases.
-/

namespace SortKiwix

/-- An XML element as far as this program observes it: a tag name and its
attribute list (Python's `attrib` dict; keys are unique in well-formed XML,
lookup takes the first binding). -/
structure Element where
  tag : String
  attrs : List (String × String)
deriving DecidableEq

/-- Python `element.get(key)`: the value of attribute `key`, if present. -/
def Element.get (e : Element) (key : String) : Option String :=
  (e.attrs.find? (fun p => p.1 == key)).map (fun p => p.2)

/-- Python `element.get(key, dflt)`: attribute lookup with a default. -/
def Element.getD (e : Element) (key dflt : String) : String :=
  match e.attrs.find? (fun p => p.1 == key) with
  | some p => p.2
  | none => dflt

/-- Whether an element is a `book` element (matched by `root.findall('book')`,
which selects direct children with tag `book`). -/
def isBook (e : Element) : Bool := e.tag == "book"

/-- Line 31: `books = root.findall('book')` — all direct `book` children of the
root, in document order. -/
def findallBooks (children : List Element) : List Element :=
  children.filter isBook

/-- Line 36's key function: `lambda book: book.get('path', '')`. -/
def sortKey (book : Element) : String := book.getD "path" ""

/-- The comparison used by Python's stable `sorted` on the keys of line 36:
keys are compared with string `≤` (codepoint-lexicographic). -/
def bookLe (a b : Element) : Bool := decide (sortKey a ≤ sortKey b)

/-- Lines 39–40: `for book in books: root.remove(book)` — each found book is
removed from the child list in turn (`remove` deletes the first matching
child). -/
def removeBooks (children books : List Element) : List Element :=
  books.foldl (fun acc b => acc.erase b) children

/-- Lines 43–44: `for book in sorted_books: root.append(book)`. -/
def appendBooks (children books : List Element) : List Element :=
  books.foldl (fun acc b => acc ++ [b]) children

/-- Lines 31–44 of `sort_library_by_path`, acting on the root's child list:
collect the `book` children, stable-sort them by `path` (missing `path` keys
as `""`), remove the originals and append the sorted books. -/
def sortRootChildren (children : List Element) : List Element :=
  let books := findallBooks children
  let sorted_books := books.mergeSort bookLe
  appendBooks (removeBooks children books) sorted_books

/-- Result of attempting to read and parse the input file (line 27):
the file may be absent (`FileNotFoundError`, caught at line 55), present but
malformed (`ET.ParseError`, caught at line 57), fail with some other
exception (caught by the generic handler at line 59), or be well-formed with
a root whose direct children are `children`. -/
inductive ParseResult where
  | notFound
  | parseError (msg : String)
  | otherError (msg : String)
  | ok (children : List Element)
deriving DecidableEq

/-- Outcome of the write step (line 51): `tree.write` either completes, or
raises an exception that the generic handler at line 59 catches. -/
inductive WriteResult where
  | ok
  | error (msg : String)
deriving DecidableEq

/-- One console message of `sort_library_by_path`, abstracting its `print`
calls (lines 52, 56, 58, 60). -/
inductive SortMsg where
  | sortedOk (input output : String)
  | inputNotFound (input : String)
  | parseErrorMsg (input : String) (msg : String)
  | unexpectedError (msg : String)
deriving DecidableEq

/-- Observable outcome of one run of `sort_library_by_path`: the Boolean
return value, the printed messages, and the output document's child list when
the write step completed (`none` when the write was never reached or raised;
a raising write may leave best-effort partial file state, which the claims do
not constrain). -/
structure SortRun where
  returnValue : Bool
  msgs : List SortMsg
  written : Option (List Element)
deriving DecidableEq

/-- The whole of `sort_library_by_path` (lines 16–61) over a read/parse
oracle `fs` and a write oracle `wr` giving the fate of `tree.write` on the
given path and document. -/
def sort_library_by_path (fs : String → ParseResult)
    (wr : String → List Element → WriteResult)
    (input_filepath output_filepath : String) : SortRun :=
  match fs input_filepath with
  | .notFound =>
      ⟨false, [SortMsg.inputNotFound input_filepath], none⟩
  | .parseError m =>
      ⟨false, [SortMsg.parseErrorMsg input_filepath m], none⟩
  | .otherError m =>
      ⟨false, [SortMsg.unexpectedError m], none⟩
  | .ok children =>
      let sorted := sortRootChildren children
      match wr output_filepath sorted with
      | .ok =>
          ⟨true, [SortMsg.sortedOk input_filepath output_filepath],
            some sorted⟩
      | .error m => ⟨false, [SortMsg.unexpectedError m], none⟩

/-- The sequence of `path` attribute values of a book list, restricted to the
books that carry a `path` attribute. -/
def pathsOf (books : List Element) : List String :=
  (books.filter (fun b => (b.get "path").isSome)).map (fun b => b.getD "path" "")

/-! ### Verifier (`verify_book_ids`, lines 63–128) -/

/-- The literal part of the regex `book id="([^"]+)"` that precedes the
captured group. -/
def idPattern : List Char := "book id=\"".data

/-- Line 83: `re.findall(r'book id="([^"]+)"', input_content)` over the raw
character stream.  `re.findall` scans left to right; at each position a match
requires the literal `book id="`, then a non-empty maximal run of non-quote
characters, then a closing quote.  On success the captured run is emitted and
scanning resumes after the closing quote; on failure scanning advances one
character. -/
def extractIds (cs : List Char) : List String :=
  findallScan 0 cs
where
  /-- The left-to-right scan: at skip count `0` a match is attempted at the
  current position; on success the captured group is emitted and the rest of
  the matched text (`skip` characters) is consumed before scanning resumes;
  on failure the scan advances one character.  The skip counter makes the
  recursion structural on the character list. -/
  findallScan : Nat → List Char → List String
  | _, [] => []
  | n + 1, _ :: rest => findallScan n rest
  | 0, c :: rest =>
    if idPattern.isPrefixOf (c :: rest) then
      let after := (c :: rest).drop idPattern.length
      let idChars := after.takeWhile (fun ch => ch != '"')
      if idChars = [] then findallScan 0 rest
      else
        match after.dropWhile (fun ch => ch != '"') with
        | '"' :: _ => idChars.asString ::
            findallScan (idPattern.length + idChars.length) rest
        | _ => findallScan 0 rest
    else findallScan 0 rest

/-- Python's `needle in haystack` substring test over character lists. -/
def substrOccurs (needle : List Char) : List Char → Bool
  | [] => needle.isEmpty
  | c :: rest => needle.isPrefixOf (c :: rest) || substrOccurs needle rest

/-- Line 112's search pattern `id="<book_id>"` and line 113's membership test:
whether that pattern occurs as a substring of the output text. -/
def idOccursIn (book_id : String) (output_content : String) : Bool :=
  substrOccurs ("id=\"" ++ book_id ++ "\"").data output_content.data

/-- Lines 95–96: the `Counter`-derived table of ids occurring more than once,
each with its occurrence count. -/
def duplicateCounts (all_input_ids : List String) : List (String × Nat) :=
  (all_input_ids.dedup.map (fun v => (v, all_input_ids.count v))).filter
    (fun p => 1 < p.2)

/-- Lines 108–114: the unique input ids whose pattern `id="<value>"` is not
found in the output text. -/
def missingIds (unique_input_ids : List String) (output_content : String) :
    List String :=
  unique_input_ids.filter (fun v => !idOccursIn v output_content)

/-- One console message of `verify_book_ids`, abstracting the `print` calls. -/
inductive Msg where
  | fileNotFound (filename : String)
  | noIdsWarning
  | dupWarning (entries : List (String × Nat))
  | uniqueCount (n : Nat)
  | success (n : Nat)
  | failure (missing : List String)
deriving DecidableEq

/-- The whole of `verify_book_ids` (lines 63–128) over a file oracle `fs`
mapping each path to its readable text (or `none` when opening raises
`FileNotFoundError`): the ordered list of messages the function prints.
A raised `FileNotFoundError` is caught at line 125 and reported with the
failing filename; the function always returns normally. -/
def verify_book_ids (fs : String → Option String)
    (input_filepath output_filepath : String) : List Msg :=
  match fs input_filepath with
  | none => [Msg.fileNotFound input_filepath]
  | some input_content =>
    let all_input_ids := extractIds input_content.data
    if all_input_ids.isEmpty then [Msg.noIdsWarning]
    else
      let unique_input_ids := all_input_ids.dedup
      let dupMsgs :=
        if unique_input_ids.length < all_input_ids.length
        then [Msg.dupWarning (duplicateCounts all_input_ids)] else []
      match fs output_filepath with
      | none => dupMsgs ++ [Msg.uniqueCount unique_input_ids.length,
                            Msg.fileNotFound output_filepath]
      | some output_content =>
        let missing := missingIds unique_input_ids output_content
        dupMsgs ++ [Msg.uniqueCount unique_input_ids.length] ++
          (if missing.isEmpty then [Msg.success unique_input_ids.length]
           else [Msg.failure missing])

/-! ### Helper lemmas about the sorter -/

theorem foldl_erase_cons {α : Type} [DecidableEq α] {p : α → Bool} :
    ∀ (bs t : List α) (a : α), (∀ b ∈ bs, p b = true) → p a = false →
      bs.foldl (fun acc b => acc.erase b) (a :: t)
        = a :: bs.foldl (fun acc b => acc.erase b) t
  | [], _, _, _, _ => rfl
  | b :: bs, t, a, hbs, ha => by
    have hb : p b = true := hbs b (List.mem_cons_self b bs)
    have hba : (a == b) = false := by
      apply beq_eq_false_iff_ne.mpr
      intro he
      rw [he, hb] at ha
      cases ha
    simp only [List.foldl_cons]
    rw [List.erase_cons_tail (by simp [hba])]
    exact foldl_erase_cons bs (t.erase b) a
      (fun x hx => hbs x (List.mem_cons_of_mem _ hx)) ha

theorem foldl_erase_filter {α : Type} [DecidableEq α] {p : α → Bool}
    (l : List α) :
    (l.filter p).foldl (fun acc b => acc.erase b) l
      = l.filter (fun a => !p a) := by
  induction l with
  | nil => rfl
  | cons a t ih =>
    by_cases hp : p a = true
    · rw [List.filter_cons_of_pos hp, List.filter_cons_of_neg (by simp [hp])]
      simp only [List.foldl_cons, List.erase_cons_head]
      exact ih
    · have hp' : p a = false := by simpa using hp
      rw [List.filter_cons_of_neg (by simp [hp']),
        List.filter_cons_of_pos (by simp [hp'])]
      rw [foldl_erase_cons _ _ _ (fun b hb => (List.mem_filter.mp hb).2) hp']
      rw [ih]

theorem foldl_append_singleton {α : Type} (bs : List α) :
    ∀ init : List α, bs.foldl (fun acc b => acc ++ [b]) init = init ++ bs := by
  induction bs with
  | nil => intro init; simp
  | cons b bs ih =>
    intro init
    simp only [List.foldl_cons]
    rw [ih]
    simp

/-- Unfolding the remove-then-append structure of lines 39–44: the output
child list is the non-book children in their original order, followed by the
stably sorted books. -/
theorem sortRootChildren_eq (children : List Element) :
    sortRootChildren children
      = children.filter (fun e => !isBook e)
        ++ (children.filter isBook).mergeSort bookLe := by
  simp only [sortRootChildren, findallBooks, removeBooks, appendBooks]
  rw [foldl_append_singleton, foldl_erase_filter]

theorem bookLe_trans : ∀ a b c : Element, bookLe a b → bookLe b c → bookLe a c := by
  intro a b c hab hbc
  simp only [bookLe, decide_eq_true_eq] at *
  exact le_trans hab hbc

theorem bookLe_total : ∀ a b : Element, bookLe a b || bookLe b a := by
  intro a b
  simp only [bookLe, Bool.or_eq_true, decide_eq_true_eq]
  exact le_total _ _

theorem filter_isBook_sortRootChildren (children : List Element) :
    (sortRootChildren children).filter isBook
      = (children.filter isBook).mergeSort bookLe := by
  rw [sortRootChildren_eq, List.filter_append]
  have h1 : (children.filter (fun e => !isBook e)).filter isBook = [] := by
    rw [List.filter_eq_nil_iff]
    intro a ha
    have h := (List.mem_filter.mp ha).2
    simp only [Bool.not_eq_true'] at h
    simp [h]
  have h2 : ((children.filter isBook).mergeSort bookLe).filter isBook
      = (children.filter isBook).mergeSort bookLe := by
    rw [List.filter_eq_self]
    intro a ha
    exact (List.mem_filter.mp (List.mem_mergeSort.mp ha)).2
  rw [h1, h2, List.nil_append]

theorem filter_not_isBook_sortRootChildren (children : List Element) :
    (sortRootChildren children).filter (fun e => !isBook e)
      = children.filter (fun e => !isBook e) := by
  rw [sortRootChildren_eq, List.filter_append]
  have h1 : (children.filter (fun e => !isBook e)).filter (fun e => !isBook e)
      = children.filter (fun e => !isBook e) := by
    rw [List.filter_eq_self]
    intro a ha
    exact (List.mem_filter.mp ha).2
  have h2 : ((children.filter isBook).mergeSort bookLe).filter
      (fun e => !isBook e) = [] := by
    rw [List.filter_eq_nil_iff]
    intro a ha
    have h := (List.mem_filter.mp (List.mem_mergeSort.mp ha)).2
    simp [h]
  rw [h1, h2, List.append_nil]

theorem empty_le_string (s : String) : "" ≤ s := by
  rw [String.le_iff_toList_le, String.toList_empty]
  exact List.nil_le

theorem le_empty_string {s : String} (h : s ≤ "") : s = "" :=
  le_antisymm h (empty_le_string s)

/-- String `≤` (the order Python uses on `str`) is the reflexive closure of
codepoint-lexicographic strict order on the character sequences. -/
theorem string_le_iff_lex {s t : String} :
    s ≤ t ↔ (s = t ∨ List.Lex (· < ·) s.data t.data) := by
  rw [le_iff_lt_or_eq]
  constructor
  · rintro (hlt | he)
    · exact Or.inr (String.lt_iff_toList_lt.mp hlt)
    · exact Or.inl he
  · rintro (he | hlex)
    · exact Or.inr he
    · exact Or.inl (String.lt_iff_toList_lt.mpr hlex)

theorem sortKey_of_no_path {b : Element} (h : b.get "path" = none) :
    sortKey b = "" := by
  simp only [Element.get, Option.map_eq_none'] at h
  simp [sortKey, Element.getD, h]

/-! ### Theorems for the claims about the sorter -/

/-- C1: sorting leaves the multiset of book elements (with all their
attributes, including `id`) and the non-book children unchanged; only the
ordering of book children changes. -/
theorem books_preserved_c1 (children : List Element) :
    ((sortRootChildren children).filter isBook).Perm (children.filter isBook) ∧
    (((sortRootChildren children).filter isBook).map
        (fun b => (b.getD "id" "", b.attrs))).Perm
      ((children.filter isBook).map (fun b => (b.getD "id" "", b.attrs))) ∧
    (sortRootChildren children).filter (fun e => !isBook e)
      = children.filter (fun e => !isBook e) := by
  have h : ((sortRootChildren children).filter isBook).Perm
      (children.filter isBook) := by
    rw [filter_isBook_sortRootChildren]
    exact List.mergeSort_perm _ _
  exact ⟨h, h.map _, filter_not_isBook_sortRootChildren children⟩

/-- C2: in the output, the sequence of `path` values of the book elements
that have a `path` attribute is non-decreasing in codepoint-lexicographic
order. -/
theorem sorted_paths_c2 (children : List Element) :
    (pathsOf ((sortRootChildren children).filter isBook)).Pairwise
      (fun a b => a = b ∨ List.Lex (· < ·) a.data b.data) := by
  rw [filter_isBook_sortRootChildren]
  unfold pathsOf
  refine List.pairwise_map.mpr (List.Pairwise.filter _
    (List.Pairwise.imp ?_
      (List.sorted_mergeSort bookLe_trans bookLe_total
        (children.filter isBook))))
  intro a b h
  have h' : sortKey a ≤ sortKey b := by simpa [bookLe] using h
  exact string_le_iff_lex.mp h'

/-- C3: the sort is stable — for every key value `k`, the books whose sort key
is `k` appear in the output in exactly their input order. -/
theorem stable_sort_c3 (children : List Element) (k : String) :
    ((sortRootChildren children).filter isBook).filter
        (fun b => sortKey b == k)
      = (children.filter isBook).filter (fun b => sortKey b == k) := by
  rw [filter_isBook_sortRootChildren]
  have hc_pw : ((children.filter isBook).filter
      (fun b => sortKey b == k)).Pairwise (fun a b => bookLe a b = true) := by
    apply List.pairwise_of_forall_mem_list
    intro a ha b hb
    have hka : sortKey a = k := by simpa using (List.mem_filter.mp ha).2
    have hkb : sortKey b = k := by simpa using (List.mem_filter.mp hb).2
    simp [bookLe, hka, hkb]
  have hsub : List.Sublist
      ((children.filter isBook).filter (fun b => sortKey b == k))
      (children.filter isBook) := List.filter_sublist _
  have h1 := List.sublist_mergeSort bookLe_trans bookLe_total hc_pw hsub
  have h2 : ((children.filter isBook).filter
        (fun b => sortKey b == k)).filter (fun b => sortKey b == k)
      = (children.filter isBook).filter (fun b => sortKey b == k) := by
    rw [List.filter_eq_self]
    intro a ha
    exact (List.mem_filter.mp ha).2
  have h3 := h1.filter (fun b => sortKey b == k)
  rw [h2] at h3
  have h4 : List.Perm
      (((children.filter isBook).mergeSort bookLe).filter
        (fun b => sortKey b == k))
      ((children.filter isBook).filter (fun b => sortKey b == k)) :=
    (List.mergeSort_perm _ _).filter _
  exact (h3.eq_of_length h4.length_eq.symm).symm

/-- C4: a book with no `path` attribute gets the empty string as its sort key,
and in the output no book with a non-empty key precedes it: whenever some book
`a` precedes a pathless book `b` among the output's books, `a`'s key is `""`. -/
theorem missing_path_first_c4 (children : List Element) :
    (∀ b : Element, b.get "path" = none → sortKey b = "") ∧
    ((sortRootChildren children).filter isBook).Pairwise
      (fun a b => b.get "path" = none → sortKey a = "") := by
  refine ⟨fun b h => sortKey_of_no_path h, ?_⟩
  rw [filter_isBook_sortRootChildren]
  apply List.Pairwise.imp ?_
    (List.sorted_mergeSort bookLe_trans bookLe_total (children.filter isBook))
  intro a b h hb
  have h' : sortKey a ≤ sortKey b := by simpa [bookLe] using h
  rw [sortKey_of_no_path hb] at h'
  exact le_empty_string h'

theorem missing_path_first_c4_witness :
    sortKey (Element.mk "book" [("id", "x")]) = "" :=
  (missing_path_first_c4 []).1 (Element.mk "book" [("id", "x")]) rfl

/-- C5: the output child list is exactly the non-book children in their
original relative order followed by the sorted books, so every book follows
every non-book sibling. -/
theorem books_relocated_c5 (children : List Element) :
    sortRootChildren children
      = children.filter (fun e => !isBook e)
        ++ (children.filter isBook).mergeSort bookLe ∧
    (∀ e ∈ children.filter (fun e => !isBook e), isBook e = false) ∧
    (∀ e ∈ (children.filter isBook).mergeSort bookLe, isBook e = true) := by
  refine ⟨sortRootChildren_eq children, ?_, ?_⟩
  · intro e he
    have h := (List.mem_filter.mp he).2
    simpa using h
  · intro e he
    exact (List.mem_filter.mp (List.mem_mergeSort.mp he)).2

theorem books_relocated_c5_witness :
    isBook (Element.mk "library" []) = false :=
  (books_relocated_c5 [Element.mk "library" []]).2.1
    (Element.mk "library" []) (by decide)

/-- C6: a missing input file makes the sorter report the not-found error for
that file, return `False` and write nothing; a malformed input likewise with
the parse-error message; and the sorter returns `True` exactly on the runs
that reach the write step (parse succeeded) *and* complete it (`tree.write`
did not raise), which are exactly the runs that produce a written output
document. -/
theorem sort_error_paths_c6 (fs : String → ParseResult)
    (wr : String → List Element → WriteResult) (i o : String) :
    (fs i = ParseResult.notFound →
      sort_library_by_path fs wr i o =
        ⟨false, [SortMsg.inputNotFound i], none⟩) ∧
    (∀ m, fs i = ParseResult.parseError m →
      sort_library_by_path fs wr i o =
        ⟨false, [SortMsg.parseErrorMsg i m], none⟩) ∧
    ((sort_library_by_path fs wr i o).returnValue = true ↔
      ∃ cs, fs i = ParseResult.ok cs ∧
        wr o (sortRootChildren cs) = WriteResult.ok) ∧
    ((sort_library_by_path fs wr i o).returnValue = true ↔
      ∃ d, (sort_library_by_path fs wr i o).written = some d) := by
  cases h : fs i with
  | notFound => simp [sort_library_by_path, h]
  | parseError m => simp [sort_library_by_path, h]
  | otherError m => simp [sort_library_by_path, h]
  | ok cs =>
    cases hw : wr o (sortRootChildren cs) with
    | ok => simp [sort_library_by_path, h, hw]
    | error m => simp [sort_library_by_path, h, hw]

theorem sort_error_paths_c6_witness :
    sort_library_by_path (fun _ => ParseResult.notFound)
      (fun _ _ => WriteResult.ok) "library.xml" "library_sorted.xml"
      = ⟨false, [SortMsg.inputNotFound "library.xml"], none⟩ :=
  (sort_error_paths_c6 (fun _ => ParseResult.notFound)
    (fun _ _ => WriteResult.ok) "library.xml" "library_sorted.xml").1 rfl

/-! ### Helper lemmas about the verifier -/

theorem missingIds_eq_nil_iff (uniq : List String) (out : String) :
    missingIds uniq out = [] ↔ ∀ v ∈ uniq, idOccursIn v out = true := by
  unfold missingIds
  rw [List.filter_eq_nil_iff]
  constructor
  · intro h v hv
    have hh := h v hv
    simpa using hh
  · intro h v hv
    simp [h v hv]

theorem mem_missingIds_iff (uniq : List String) (out : String) (v : String) :
    v ∈ missingIds uniq out ↔ (v ∈ uniq ∧ idOccursIn v out = false) := by
  unfold missingIds
  rw [List.mem_filter]
  simp [Bool.not_eq_true']

theorem mem_duplicateCounts (ids : List String) (v : String) (c : Nat) :
    (v, c) ∈ duplicateCounts ids ↔
      (v ∈ ids ∧ c = ids.count v ∧ 1 < c) := by
  unfold duplicateCounts
  rw [List.mem_filter, List.mem_map]
  constructor
  · rintro ⟨⟨u, hu, he⟩, hc⟩
    obtain ⟨rfl, rfl⟩ : u = v ∧ ids.count u = c := by
      injection he with ha hb
      exact ⟨ha, hb⟩
    exact ⟨List.mem_dedup.mp hu, rfl, by simpa using hc⟩
  · rintro ⟨hv, rfl, hc⟩
    exact ⟨⟨v, List.mem_dedup.mpr hv, rfl⟩, by simpa using hc⟩

/-- Evaluation of `verify_book_ids` on the main path: both files readable and
at least one id extracted. -/
theorem verify_book_ids_unfold (fs : String → Option String)
    (i o itext otext : String)
    (h1 : fs i = some itext) (h2 : fs o = some otext)
    (h3 : extractIds itext.data ≠ []) :
    verify_book_ids fs i o =
      (if (extractIds itext.data).dedup.length
          < (extractIds itext.data).length
       then [Msg.dupWarning (duplicateCounts (extractIds itext.data))]
       else [])
      ++ [Msg.uniqueCount (extractIds itext.data).dedup.length]
      ++ (if (missingIds (extractIds itext.data).dedup otext).isEmpty
          then [Msg.success (extractIds itext.data).dedup.length]
          else [Msg.failure
            (missingIds (extractIds itext.data).dedup otext)]) := by
  simp only [verify_book_ids, h1, h2, List.isEmpty_eq_false.mpr h3,
    Bool.false_eq_true, if_false]

/-! ### Theorems for the claims about the verifier -/

/-- C7: with both files readable and at least one id extracted from the
input, verification reports success exactly when every unique extracted id
occurs in the output text as the substring `id="<value>"`; otherwise it
reports failure listing exactly the unique ids whose substring is absent. -/
theorem verify_success_iff_c7 (fs : String → Option String)
    (i o itext otext : String)
    (h1 : fs i = some itext) (h2 : fs o = some otext)
    (h3 : extractIds itext.data ≠ []) :
    ((∃ n, Msg.success n ∈ verify_book_ids fs i o) ↔
      ∀ v ∈ (extractIds itext.data).dedup, idOccursIn v otext = true) ∧
    (∀ m, Msg.failure m ∈ verify_book_ids fs i o ↔
      (missingIds (extractIds itext.data).dedup otext ≠ [] ∧
       m = missingIds (extractIds itext.data).dedup otext)) ∧
    (∀ v, v ∈ missingIds (extractIds itext.data).dedup otext ↔
      (v ∈ (extractIds itext.data).dedup ∧ idOccursIn v otext = false)) := by
  rw [verify_book_ids_unfold fs i o itext otext h1 h2 h3]
  refine ⟨?_, ?_, fun v => mem_missingIds_iff _ _ v⟩
  · rw [← missingIds_eq_nil_iff]
    by_cases hd : (extractIds itext.data).dedup.length
        < (extractIds itext.data).length <;>
      by_cases hm : missingIds (extractIds itext.data).dedup otext = [] <;>
      simp [hd, hm]
  · intro m
    by_cases hd : (extractIds itext.data).dedup.length
        < (extractIds itext.data).length <;>
      by_cases hm : missingIds (extractIds itext.data).dedup otext = [] <;>
      simp [hd, hm]

theorem verify_success_iff_c7_witness :
    ∃ n, Msg.success n ∈ verify_book_ids
      (fun _ => some "<library><book id=\"a\"/></library>")
      "library.xml" "library_sorted.xml" :=
  ((verify_success_iff_c7
      (fun _ => some "<library><book id=\"a\"/></library>")
      "library.xml" "library_sorted.xml"
      "<library><book id=\"a\"/></library>"
      "<library><book id=\"a\"/></library>"
      rfl rfl (by decide)).1).mpr (by decide)

/-- C8: the duplicate warning is emitted exactly when the count of all
extracted ids exceeds the count of unique ids; it lists exactly the ids with
occurrence count above one, each with its count; and success is still
determined solely by the missing-id check. -/
theorem verify_duplicates_c8 (fs : String → Option String)
    (i o itext otext : String)
    (h1 : fs i = some itext) (h2 : fs o = some otext)
    (h3 : extractIds itext.data ≠ []) :
    ((∃ d, Msg.dupWarning d ∈ verify_book_ids fs i o) ↔
      (extractIds itext.data).dedup.length
        < (extractIds itext.data).length) ∧
    (∀ d, Msg.dupWarning d ∈ verify_book_ids fs i o →
      d = duplicateCounts (extractIds itext.data)) ∧
    (∀ v c, (v, c) ∈ duplicateCounts (extractIds itext.data) ↔
      (v ∈ extractIds itext.data ∧
       c = (extractIds itext.data).count v ∧ 1 < c)) ∧
    ((∃ n, Msg.success n ∈ verify_book_ids fs i o) ↔
      missingIds (extractIds itext.data).dedup otext = []) := by
  rw [verify_book_ids_unfold fs i o itext otext h1 h2 h3]
  refine ⟨?_, ?_, fun v c => mem_duplicateCounts _ v c, ?_⟩
  · by_cases hd : (extractIds itext.data).dedup.length
        < (extractIds itext.data).length <;>
      by_cases hm : missingIds (extractIds itext.data).dedup otext = [] <;>
      simp [hd, hm]
  · intro d
    by_cases hd : (extractIds itext.data).dedup.length
        < (extractIds itext.data).length <;>
      by_cases hm : missingIds (extractIds itext.data).dedup otext = [] <;>
      simp [hd, hm]
  · by_cases hd : (extractIds itext.data).dedup.length
        < (extractIds itext.data).length <;>
      by_cases hm : missingIds (extractIds itext.data).dedup otext = [] <;>
      simp [hd, hm]

theorem verify_duplicates_c8_witness :
    ∃ d, Msg.dupWarning d ∈ verify_book_ids
      (fun _ => some "<x><book id=\"a\"/><book id=\"a\"/></x>")
      "library.xml" "library_sorted.xml" :=
  ((verify_duplicates_c8
      (fun _ => some "<x><book id=\"a\"/><book id=\"a\"/></x>")
      "library.xml" "library_sorted.xml"
      "<x><book id=\"a\"/><book id=\"a\"/></x>"
      "<x><book id=\"a\"/><book id=\"a\"/></x>"
      rfl rfl (by decide)).1).mpr (by decide)

/-- C9 (amended): the verifier is a total function (the embedding has no
exception channel, matching the catch-all at lines 125–128).  If the input
file cannot be opened it reports file-not-found naming the input and performs
no further checks; if the output file cannot be opened *when the
output-reading step is reached* (i.e. at least one id was extracted), it
reports file-not-found naming the output after the input-side messages, and
the missing-id check is skipped: no success or failure message is emitted. -/
theorem verify_not_found_c9 (fs : String → Option String) (i o : String) :
    (fs i = none → verify_book_ids fs i o = [Msg.fileNotFound i]) ∧
    (∀ itext, fs i = some itext → extractIds itext.data ≠ [] →
      fs o = none →
      verify_book_ids fs i o =
        (if (extractIds itext.data).dedup.length
            < (extractIds itext.data).length
         then [Msg.dupWarning (duplicateCounts (extractIds itext.data))]
         else [])
        ++ [Msg.uniqueCount (extractIds itext.data).dedup.length,
            Msg.fileNotFound o] ∧
      (∀ n, Msg.success n ∉ verify_book_ids fs i o) ∧
      (∀ m, Msg.failure m ∉ verify_book_ids fs i o)) := by
  constructor
  · intro h
    simp [verify_book_ids, h]
  · intro itext h1 h3 h2
    have he : verify_book_ids fs i o =
        (if (extractIds itext.data).dedup.length
            < (extractIds itext.data).length
         then [Msg.dupWarning (duplicateCounts (extractIds itext.data))]
         else [])
        ++ [Msg.uniqueCount (extractIds itext.data).dedup.length,
            Msg.fileNotFound o] := by
      simp only [verify_book_ids, h1, h2, List.isEmpty_eq_false.mpr h3,
        Bool.false_eq_true, if_false]
    refine ⟨he, ?_, ?_⟩
    · intro n
      rw [he]
      by_cases hd : (extractIds itext.data).dedup.length
          < (extractIds itext.data).length <;> simp [hd]
    · intro m
      rw [he]
      by_cases hd : (extractIds itext.data).dedup.length
          < (extractIds itext.data).length <;> simp [hd]

theorem verify_not_found_c9_witness :
    verify_book_ids (fun _ => none) "library.xml" "library_sorted.xml"
      = [Msg.fileNotFound "library.xml"] :=
  (verify_not_found_c9 (fun _ => none)
    "library.xml" "library_sorted.xml").1 rfl

/-- C9 counterexample to the claim as stated: when the input file is readable
but yields no extracted ids, the verifier returns early with only the no-ids
warning, so an unopenable output file is never reported — no file-not-found
message naming it is emitted, contradicting the unconditional "if either file
cannot be opened it reports a file-not-found message naming the missing
file". -/
theorem verify_not_found_c9_counterexample :
    ((fun p => if p = "library.xml" then some "<library/>" else none)
        "library_sorted.xml" = none) ∧
    verify_book_ids
        (fun p => if p = "library.xml" then some "<library/>" else none)
        "library.xml" "library_sorted.xml" = [Msg.noIdsWarning] ∧
    Msg.fileNotFound "library_sorted.xml" ∉
      verify_book_ids
        (fun p => if p = "library.xml" then some "<library/>" else none)
        "library.xml" "library_sorted.xml" := by
  refine ⟨?_, ?_, ?_⟩ <;> decide

/-- C10: the verifier's id extraction requires the attribute text to follow
the literal `book ` directly and the value to be non-empty.  A book whose
attributes are serialized in another order (`path` before `id`), or with an
empty id, contributes no extracted id — so an input consisting solely of such
books triggers the no-ids warning and early return — while a book with
`id` first is extracted, and the sorter itself processes the reordered-
attribute book normally. -/
theorem regex_literal_c10 :
    extractIds "<library><book path=\"lib/a.zim\" id=\"x\"/></library>".data
      = [] ∧
    extractIds "<library><book id=\"\" path=\"p\"/></library>".data = [] ∧
    extractIds "<library><book id=\"x\" path=\"p\"/></library>".data
      = ["x"] ∧
    verify_book_ids
      (fun _ => some "<library><book path=\"lib/a.zim\" id=\"x\"/></library>")
      "library.xml" "library_sorted.xml" = [Msg.noIdsWarning] ∧
    sortRootChildren [Element.mk "book" [("path", "lib/a.zim"), ("id", "x")]]
      = [Element.mk "book" [("path", "lib/a.zim"), ("id", "x")]] := by
  refine ⟨by decide, by decide, by decide, by decide, ?_⟩
  rw [sortRootChildren_eq]
  have h1 : [Element.mk "book" [("path", "lib/a.zim"), ("id", "x")]].filter
      (fun e => !isBook e) = [] := by decide
  have h2 : [Element.mk "book" [("path", "lib/a.zim"), ("id", "x")]].filter
      isBook = [Element.mk "book" [("path", "lib/a.zim"), ("id", "x")]] := by
    decide
  rw [h1, h2, List.mergeSort_singleton, List.nil_append]

end SortKiwix
